import Mathlib

/-!
Shallow embedding of `src/scripts/test-frontend.py` (the frontend test
runner of the OliveAIWEB repository) and proofs of the spec's testable
properties about it.

The script consists of a Command Runner `run_command(cmd, description)`
that shells out to `subprocess.run(..., timeout=60)` and returns
`result.returncode == 0`, converting `subprocess.TimeoutExpired` and any
other `Exception` into `False`, and a driver `main()` that assigns the
result of nine fixed checks into the insertion-ordered dict `results`,
counts `passed = sum(1 for v in results.values() if v)` against
`total = len(results)`, prints `Total: {passed}/{total} tests passed`,
and returns exit code 0 when `passed == total` and 1 otherwise.

The outside world is modelled by the `ExecOutcome` a subprocess
invocation yields: the process completed with an exit status and
captured output streams, or it exceeded the timeout
(`subprocess.TimeoutExpired`), or invoking it raised some other
exception (missing executable, unusable working directory, ...).
-/

/-- The observable outcome of executing one external command through the
subprocess layer: the process completed with exit status `returncode` and
captured `stdout`/`stderr` text, or it exceeded the timeout, or invocation
raised some other exception carrying a message. -/
inductive ExecOutcome where
  | completed (returncode : Int) (stdout stderr : String)
  | timeout
  | exc (msg : String)
deriving DecidableEq

/-- The per-command timeout passed to `subprocess.run` in `run_command`
(seconds). -/
def commandTimeoutSeconds : Nat := 60

/-- Embedding of `run_command(cmd, description)` from `test-frontend.py`.
The banner and the echoed captured streams are print side effects with no
bearing on the returned value.  The returned boolean is
`result.returncode == 0` when the subprocess completes, `False` in the
`subprocess.TimeoutExpired` handler, and `False` in the generic
`Exception` handler. -/
def run_command (cmd description : String) (outcome : ExecOutcome) : Bool :=
  match outcome with
  | .completed returncode _ _ => returncode == 0
  | .timeout => false
  | .exc _ => false

/-- One declared check of the driver: the `results` dict key, the shell
command string, the human-readable description, and the outcome the
environment gives that command when it is invoked. -/
structure Check where
  name : String
  cmd : String
  description : String
  outcome : ExecOutcome

/-- Python dict assignment `results[k] = v` on an insertion-ordered
association list: an existing key keeps its position and gets the new
value; a fresh key is appended at the end. -/
def dictInsert (k : String) (v : Bool) : List (String × Bool) → List (String × Bool)
  | [] => [(k, v)]
  | (a, b) :: rest => if a = k then (k, v) :: rest else (a, b) :: dictInsert k v rest

/-- The driver loop starting from an accumulated `results` dict: for each
check in order, perform `results[name] = run_command(cmd, description)`. -/
def runChecksFrom (acc : List (String × Bool)) (cs : List Check) : List (String × Bool) :=
  cs.foldl (fun a c => dictInsert c.name (run_command c.cmd c.description c.outcome) a) acc

/-- The driver loop of `main()` starting from the empty `results` dict. -/
def runChecks (cs : List Check) : List (String × Bool) := runChecksFrom [] cs

/-- The tally `passed = sum(1 for v in results.values() if v)`. -/
def passedCount (rs : List (String × Bool)) : Nat := rs.countP (fun p => p.2)

/-- The exit code `main()` returns from the summary:
`0` when `passed == total`, `1` otherwise. -/
def exitOf (rs : List (String × Bool)) : Nat :=
  if passedCount rs = rs.length then 0 else 1

/-- The printed summary line `Total: {passed}/{total} tests passed`. -/
def summaryLine (rs : List (String × Bool)) : String :=
  "Total: " ++ toString (passedCount rs) ++ "/" ++ toString rs.length ++ " tests passed"

/-- The `results` keys declared in `main()`, in declaration order. -/
def checkNames : List String :=
  ["node_check", "project_structure", "env_check", "deps_check", "lint",
   "build", "build_output", "api_services", "types_check"]

/-- The nine checks declared in `main()`, in declaration order, with their
exact command strings and descriptions; `world i` is the outcome the
environment gives the `i`-th subprocess invocation. -/
def mainChecks (world : Nat → ExecOutcome) : List Check :=
  [⟨"node_check", "node --version && npm --version",
    "Checking Node.js and npm installation", world 0⟩,
   ⟨"project_structure",
    "ls -la | grep -E \"package.json|tsconfig.json|tailwind.config|next.config\"",
    "Checking project structure", world 1⟩,
   ⟨"env_check",
    "test -f .env.local && echo \"✓ .env.local found\" || echo \"✗ .env.local missing\"",
    "Verifying environment configuration", world 2⟩,
   ⟨"deps_check", "npm list --depth=0 2>/dev/null | head -20",
    "Checking installed dependencies", world 3⟩,
   ⟨"lint", "npm run lint 2>&1 | head -50", "Running ESLint", world 4⟩,
   ⟨"build", "npm run build 2>&1 | tail -50", "Building Next.js project", world 5⟩,
   ⟨"build_output",
    "test -d .next && echo \"✓ .next build directory created\" || echo \"✗ Build directory missing\"",
    "Verifying build output", world 6⟩,
   ⟨"api_services", "ls -la services/api/ | grep -E \"\\.ts$\"",
    "Checking API service files", world 7⟩,
   ⟨"types_check",
    "test -f types/api.ts && wc -l types/api.ts && echo \"✓ API types file valid\" || echo \"✗ Types file missing\"",
    "Validating TypeScript types", world 8⟩]

/-- The `results` dict after the nine sequential assignments of `main()`. -/
def mainResults (world : Nat → ExecOutcome) : List (String × Bool) :=
  runChecks (mainChecks world)

/-- The value `main()` returns, which `sys.exit(main())` makes the
process exit code. -/
def mainExit (world : Nat → ExecOutcome) : Nat := exitOf (mainResults world)

/-- The control part of an outcome: the exit status of a completed
subprocess, or which exception handler fires; the captured stdout/stderr
text and the exception message are erased. -/
inductive ControlOutcome where
  | completed (returncode : Int)
  | timedOut
  | raised
deriving DecidableEq

/-- Projection of an outcome onto its control part. -/
def controlOf : ExecOutcome → ControlOutcome
  | .completed rc _ _ => .completed rc
  | .timeout => .timedOut
  | .exc _ => .raised

/-- A concrete three-check sequence in which the second command exits
non-zero and the other two exit zero. -/
def exampleChecks : List Check :=
  [⟨"check_one", "cmd-one", "first check", .completed 0 "" ""⟩,
   ⟨"check_two", "cmd-two", "second check", .completed 1 "" "boom"⟩,
   ⟨"check_three", "cmd-three", "third check", .completed 0 "" ""⟩]

/-! ## Helper lemmas -/

theorem dictInsert_not_mem (k : String) (v : Bool) (acc : List (String × Bool))
    (h : k ∉ acc.map Prod.fst) : dictInsert k v acc = acc ++ [(k, v)] := by
  induction acc with
  | nil => rfl
  | cons p rest ih =>
    obtain ⟨a, b⟩ := p
    simp only [List.map_cons, List.mem_cons, not_or] at h
    have hne : a ≠ k := fun hak => h.1 hak.symm
    simp [dictInsert, hne, ih h.2]

theorem runChecksFrom_eq_append (cs : List Check) :
    ∀ acc : List (String × Bool),
      (acc.map Prod.fst ++ cs.map Check.name).Nodup →
      runChecksFrom acc cs
        = acc ++ cs.map fun c => (c.name, run_command c.cmd c.description c.outcome) := by
  induction cs with
  | nil =>
    intro acc _
    simp [runChecksFrom]
  | cons c rest ih =>
    intro acc h
    have hnotmem : c.name ∉ acc.map Prod.fst := by
      have hd := (List.nodup_append.mp h).2.2
      intro hmem
      exact hd hmem (List.mem_cons_self _ _)
    calc runChecksFrom acc (c :: rest)
        = runChecksFrom
            (acc ++ [(c.name, run_command c.cmd c.description c.outcome)]) rest := by
          simp only [runChecksFrom, List.foldl_cons,
            dictInsert_not_mem _ _ _ hnotmem]
      _ = (acc ++ [(c.name, run_command c.cmd c.description c.outcome)])
            ++ rest.map fun c => (c.name, run_command c.cmd c.description c.outcome) := by
          refine ih _ ?_
          simpa using h
      _ = acc ++ (c :: rest).map
            fun c => (c.name, run_command c.cmd c.description c.outcome) := by
          simp

theorem runChecks_eq_map (cs : List Check) (h : (cs.map Check.name).Nodup) :
    runChecks cs = cs.map fun c => (c.name, run_command c.cmd c.description c.outcome) := by
  have haux := runChecksFrom_eq_append cs [] (by simpa using h)
  simpa [runChecks] using haux

theorem mainResults_eq (world : Nat → ExecOutcome) :
    mainResults world = (mainChecks world).map
      fun c => (c.name, run_command c.cmd c.description c.outcome) := rfl

theorem mainResults_names (world : Nat → ExecOutcome) :
    (mainResults world).map Prod.fst = checkNames := rfl

theorem exitOf_eq_zero_iff (rs : List (String × Bool)) :
    exitOf rs = 0 ↔ ∀ p ∈ rs, p.2 = true := by
  unfold exitOf passedCount
  split
  next h =>
    exact iff_of_true rfl (fun p hp => List.countP_eq_length.mp h p hp)
  next h =>
    exact iff_of_false one_ne_zero (fun hall => h (List.countP_eq_length.mpr hall))

theorem exitOf_eq_zero_or_one (rs : List (String × Bool)) :
    exitOf rs = 0 ∨ exitOf rs = 1 := by
  unfold exitOf
  split
  · exact Or.inl rfl
  · exact Or.inr rfl

/-! ## Claim theorems -/

/-- C1: for every assignment of outcomes to the nine declared checks, the
process exit code of `main()` is 0 iff every declared check passed, and is
1 iff at least one declared check failed. -/
theorem main_exit_code_iff_all_passed (world : Nat → ExecOutcome) :
    (mainExit world = 0 ↔ ∀ p ∈ mainResults world, p.2 = true) ∧
    (mainExit world = 1 ↔ ¬ ∀ p ∈ mainResults world, p.2 = true) := by
  have h0 := exitOf_eq_zero_iff (mainResults world)
  refine ⟨h0, ?_, ?_⟩
  · intro h1 hall
    have h00 : mainExit world = 0 := h0.mpr hall
    rw [h00] at h1
    exact absurd h1 (by decide)
  · intro hnot
    rcases exitOf_eq_zero_or_one (mainResults world) with h | h
    · exact absurd (h0.mp h) hnot
    · exact h

/-- C2: when the subprocess completes without raising, `run_command`
returns true exactly when the exit status equals zero. -/
theorem run_command_true_iff_exit_zero (cmd description : String) (rc : Int)
    (out err : String) :
    run_command cmd description (.completed rc out err) = true ↔ rc = 0 := by
  simp [run_command]

/-- C3: a command that exceeds its timeout is recorded as failed, and with
a timeout injected at any position the driver still yields a result for
every declared check in declared order: the result list is the pointwise
map of the checks, so a timeout never aborts the run. -/
theorem timeout_recorded_failed_run_continues (cmd description : String)
    (world : Nat → ExecOutcome) (i : Nat) :
    run_command cmd description .timeout = false ∧
    (mainResults fun j => if j = i then .timeout else world j).map Prod.fst
      = checkNames ∧
    (mainResults fun j => if j = i then .timeout else world j)
      = (mainChecks fun j => if j = i then .timeout else world j).map
          fun c => (c.name, run_command c.cmd c.description c.outcome) :=
  ⟨rfl, mainResults_names _, mainResults_eq _⟩

/-- C4: for every sequence of declared checks (with their distinct dict
keys) the summary tally has exactly as many results as declared checks and
each declared check contributes exactly one result, whatever the outcomes;
in particular on the concrete three-check sequence whose second check fails
the tool tallies 2/3 passed and exits 1. -/
theorem summary_reports_all_declared (cs : List Check)
    (h : (cs.map Check.name).Nodup) :
    ((runChecks cs).length = cs.length ∧
      ∀ n ∈ cs.map Check.name, ((runChecks cs).map Prod.fst).count n = 1) ∧
    (passedCount (runChecks exampleChecks) = 2 ∧
      (runChecks exampleChecks).length = 3 ∧
      exitOf (runChecks exampleChecks) = 1 ∧
      summaryLine (runChecks exampleChecks) = "Total: 2/3 tests passed") := by
  have hmap := runChecks_eq_map cs h
  refine ⟨⟨?_, ?_⟩, by decide, by decide, by decide, rfl⟩
  · rw [hmap, List.length_map]
  · intro n hn
    have hfst : (runChecks cs).map Prod.fst = cs.map Check.name := by
      rw [hmap, List.map_map]
      rfl
    rw [hfst]
    exact List.count_eq_one_of_mem h hn

/-- Witness for C4 at the concrete three-check sequence. -/
theorem summary_reports_all_declared_witness :
    ((runChecks exampleChecks).length = exampleChecks.length ∧
      ∀ n ∈ exampleChecks.map Check.name,
        ((runChecks exampleChecks).map Prod.fst).count n = 1) ∧
    (passedCount (runChecks exampleChecks) = 2 ∧
      (runChecks exampleChecks).length = 3 ∧
      exitOf (runChecks exampleChecks) = 1 ∧
      summaryLine (runChecks exampleChecks) = "Total: 2/3 tests passed") :=
  summary_reports_all_declared exampleChecks (by decide)

/-- C5: `run_command` is total at its boundary: on every outcome it
returns a boolean, it returns true only when the subprocess completed with
exit status zero, and every exceptional outcome is converted to false
rather than propagated. -/
theorem run_command_total_boundary (cmd description : String)
    (o : ExecOutcome) :
    run_command cmd description o = false ∨
      (run_command cmd description o = true ∧
        ∃ out err, o = .completed 0 out err) := by
  cases o with
  | completed rc out err =>
    by_cases hrc : rc = 0
    · subst hrc
      exact Or.inr ⟨by simp [run_command], out, err, rfl⟩
    · exact Or.inl (by simp [run_command, hrc])
  | timeout => exact Or.inl rfl
  | exc m => exact Or.inl rfl

/-- C6: an invocation failure (missing executable or unusable working
directory), modelled as the generic exception outcome, is recorded as
failed, and with such a failure injected at any position the driver still
yields a result for every declared check. -/
theorem invocation_failure_recorded_failed (cmd description m : String)
    (world : Nat → ExecOutcome) (i : Nat) :
    run_command cmd description (.exc m) = false ∧
    (mainResults fun j => if j = i then .exc m else world j).map Prod.fst
      = checkNames :=
  ⟨rfl, mainResults_names _⟩

/-- C7: with zero declared checks the driver reports 0/0 passed and takes
the success branch, exiting 0. -/
theorem zero_checks_vacuous_success :
    runChecks [] = ([] : List (String × Bool)) ∧
    passedCount (runChecks []) = 0 ∧
    (runChecks []).length = 0 ∧
    exitOf (runChecks []) = 0 ∧
    summaryLine (runChecks []) = "Total: 0/0 tests passed" :=
  ⟨rfl, rfl, rfl, rfl, rfl⟩

/-- C8: permuting a sequence of check results changes neither the passed
count, nor the total count, nor the exit code the driver computes. -/
theorem order_of_results_cosmetic (rs₁ rs₂ : List (String × Bool))
    (h : rs₁.Perm rs₂) :
    passedCount rs₁ = passedCount rs₂ ∧ rs₁.length = rs₂.length ∧
    exitOf rs₁ = exitOf rs₂ := by
  have hc : passedCount rs₁ = passedCount rs₂ := h.countP_eq _
  have hl : rs₁.length = rs₂.length := h.length_eq
  refine ⟨hc, hl, ?_⟩
  unfold exitOf
  rw [hc, hl]

/-- Witness for C8 on a concrete permutation of two results. -/
theorem order_of_results_cosmetic_witness :
    passedCount [("alpha", true), ("beta", false)]
        = passedCount [("beta", false), ("alpha", true)] ∧
    ([("alpha", true), ("beta", false)] : List (String × Bool)).length
        = ([("beta", false), ("alpha", true)] : List (String × Bool)).length ∧
    exitOf [("alpha", true), ("beta", false)]
        = exitOf [("beta", false), ("alpha", true)] :=
  order_of_results_cosmetic _ _ (by decide)

/-- C9: the boolean `run_command` returns depends only on the control
outcome of the subprocess (exit status, or which exception handler fires),
never on the captured stdout/stderr text or the exception message. -/
theorem run_command_independent_of_output (cmd description : String)
    (o₁ o₂ : ExecOutcome) (h : controlOf o₁ = controlOf o₂) :
    run_command cmd description o₁ = run_command cmd description o₂ := by
  cases o₁ <;> cases o₂ <;> simp_all [controlOf, run_command]

/-- Witness for C9: two completed runs with the same exit status but
different captured output yield the same boolean. -/
theorem run_command_independent_of_output_witness :
    run_command "node --version && npm --version"
        "Checking Node.js and npm installation" (.completed 0 "v20.1.0" "")
      = run_command "node --version && npm --version"
        "Checking Node.js and npm installation"
        (.completed 0 "v18.0.0" "some warning text") :=
  run_command_independent_of_output _ _ _ _ (by decide)
